import Mathlib

/-!
Shallow embedding of the fraud-detection scoring pipeline
(frontend/lib/preprocessing/Scaler.ts, frontend/lib/onnx/modelConfig.ts,
frontend/lib/onnx/ONNXInference.ts, frontend/lib/utils/index.ts,
frontend/lib/preprocessing/TemporalFeatures.ts, frontend/app/dashboard FraudPreprocessor).

JavaScript numbers are modelled as exact rationals plus the non-finite
values NaN and the two infinities; records are association lists keyed by
field-name strings, with JS `Map` insertion-order semantics modelled on
lists of pairs.  Wall-clock readings (`Date.now()`, `performance.now()`)
enter the model as explicit parameters.
-/

namespace FraudDetection

/-- A JavaScript number: a finite value (modelled exactly as a rational), `NaN`,
`Infinity` or `-Infinity`. -/
inductive JSNum where
  | num (q : ℚ)
  | nan
  | inf
  | ninf
deriving DecidableEq

/-- JS `<` on numbers: any comparison involving `NaN` is false. -/
def jsLt : JSNum → JSNum → Bool
  | .num a, .num b => decide (a < b)
  | .num _, .inf => true
  | .ninf, .num _ => true
  | .ninf, .inf => true
  | _, _ => false

/-- JS `>` on numbers. -/
def jsGt (a b : JSNum) : Bool := jsLt b a

/-- JS `isFinite`. -/
def jsIsFinite : JSNum → Bool
  | .num _ => true
  | _ => false

/-- JS `isNaN`. -/
def jsIsNaN : JSNum → Bool
  | .nan => true
  | _ => false

/-- The integer `n` with `n / 10^digits` closest to `q`, ties toward `+∞` —
the rounding used by JS `Number.prototype.toFixed`. -/
def toFixedInt (digits : ℕ) (q : ℚ) : ℤ := Int.floor (q * (10 : ℚ) ^ digits + 1 / 2)

/-- Decimal digits of `m` left-padded with zeros to `pad` places. -/
def digitsString (pad : ℕ) (m : ℕ) : String :=
  let s := toString m
  String.mk (List.replicate (pad - s.length) '0') ++ s

/-- JS `v.toFixed(digits)` (for `digits > 0`; the pipeline uses 2 and 4).
The JS rendering `"-0.00…"` of tiny negatives is collapsed to `"0.00…"`,
as exact rationals carry no negative zero. -/
def toFixedStr (digits : ℕ) : JSNum → String
  | .nan => "NaN"
  | .inf => "Infinity"
  | .ninf => "-Infinity"
  | .num q =>
    let n := toFixedInt digits q
    let sign := if n < 0 then "-" else ""
    let m := n.natAbs
    let p := (10 : ℕ) ^ digits
    sign ++ toString (m / p) ++ "." ++ digitsString digits (m % p)

/-- Plain JS string interpolation of a number as it occurs in the
validation messages.  Only non-finite values ever reach this rendering in
`validateFeatureValues` (finite values are never reported invalid); the
finite case is given an exact fraction rendering for totality. -/
def jsNumPlainStr : JSNum → String
  | .nan => "NaN"
  | .inf => "Infinity"
  | .ninf => "-Infinity"
  | .num q => toString q.num ++ "/" ++ toString q.den

-- ===========================================================================
-- Scaler.ts — StandardScaler
-- ===========================================================================

/-- Lookup of a field in a JS record of numbers (`undefined` ↦ `none`). -/
def recLookup (m : List (String × ℚ)) (k : String) : Option ℚ :=
  (m.find? (fun p => p.1 == k)).map (fun p => p.2)

/-- JS `x || d` on an optionally-present number: `undefined` and `0` are
falsy and yield the default `d`. -/
def jsOr (v : Option ℚ) (d : ℚ) : ℚ :=
  match v with
  | none => d
  | some x => if x = 0 then d else x

/-- `StandardScaler` parameters: `mean` and `std` records. -/
structure ScalerParams where
  mean : List (String × ℚ)
  std : List (String × ℚ)

/-- `StandardScaler.transformSingle`:
`mean = this.mean[feature] || 0; std = this.std[feature] || 1;`
`std === 0 ? 0 : (value - mean) / std`. -/
def transformSingle (p : ScalerParams) (feature : String) (value : ℚ) : ℚ :=
  let mean := jsOr (recLookup p.mean feature) 0
  let std := jsOr (recLookup p.std feature) 1
  if std = 0 then 0 else (value - mean) / std

/-- `StandardScaler.inverseTransformSingle`: `scaledValue * std + mean`
with the same defaulted `mean`/`std`. -/
def inverseTransformSingle (p : ScalerParams) (feature : String) (scaledValue : ℚ) : ℚ :=
  let mean := jsOr (recLookup p.mean feature) 0
  let std := jsOr (recLookup p.std feature) 1
  scaledValue * std + mean

/-- `createPretrainedScaler()` parameters (training-set statistics). -/
def pretrainedScalerParams : ScalerParams :=
  { mean := [("Time", 94813.859575), ("Amount", 88.349619)]
    std := [("Time", 47488.145955), ("Amount", 250.120109)] }

-- ===========================================================================
-- lib/utils/index.ts — getRiskLevel, and modelConfig.ts thresholds
-- ===========================================================================

/-- `getRiskLevel` from `lib/utils/index.ts` — the function `ONNXInference`
imports via `@/lib/utils` and calls in `postprocess`. -/
def getRiskLevel (fraudProbability : ℚ) : String :=
  if fraudProbability < 0.3 then "Low"
  else if fraudProbability < 0.7 then "Medium"
  else "High"

/-- `PREDICTION_THRESHOLDS.fraud` from `modelConfig.ts`. -/
def PREDICTION_THRESHOLDS_fraud : ℚ := 0.5

/-- `PREDICTION_THRESHOLDS.risk_levels` from `modelConfig.ts`. -/
structure RiskLevelThresholds where
  very_low : ℚ
  low : ℚ
  medium : ℚ
  high : ℚ

def PREDICTION_THRESHOLDS_risk_levels : RiskLevelThresholds :=
  { very_low := 0.1, low := 0.3, medium := 0.7, high := 0.9 }

/-- The inhabitants of the declared TS union type
`RiskLevel = VERY_LOW | LOW | MEDIUM | HIGH | VERY_HIGH`
(`types/transaction.ts`). -/
def RISK_LEVEL_VALUES : List String :=
  ["VERY_LOW", "LOW", "MEDIUM", "HIGH", "VERY_HIGH"]

/-- Modelled from the spec: the 5-tier mapping of `P(Fraud)` to a risk level
via the fixed thresholds of `PREDICTION_THRESHOLDS_risk_levels`
(spec §4.6 step 5: `<0.1` VERY_LOW, `<0.3` LOW, `<0.7` MEDIUM, `<0.9` HIGH,
else VERY_HIGH); stated for comparison with the source's `getRiskLevel`. -/
def getRiskLevelSpec (fraudProbability : ℚ) : String :=
  if fraudProbability < PREDICTION_THRESHOLDS_risk_levels.very_low then "VERY_LOW"
  else if fraudProbability < PREDICTION_THRESHOLDS_risk_levels.low then "LOW"
  else if fraudProbability < PREDICTION_THRESHOLDS_risk_levels.medium then "MEDIUM"
  else if fraudProbability < PREDICTION_THRESHOLDS_risk_levels.high then "HIGH"
  else "VERY_HIGH"

-- ===========================================================================
-- ONNXInference.postprocess
-- ===========================================================================

/-- `PredictionResult` (`types/transaction.ts`), the numeric/label part. -/
structure PredictionResult where
  prediction : String
  confidence_score : ℚ
  probability_fraud : ℚ
  probability_normal : ℚ
  risk_level : String
deriving DecidableEq

/-- `InferenceResult extends PredictionResult` with the `cached` flag.
The wall-clock fields (`processing_time_ms`, optional `timings`) and the
constant `model_version` are not modelled. -/
structure InferenceResult extends PredictionResult where
  cached : Bool
deriving DecidableEq

/-- `ONNXInference.postprocess`: `probabilities = [P(Normal), P(Fraud)]`;
label by the 0.5 threshold, confidence as the max, risk level via
`getRiskLevel`.  (JS indexing out of bounds would give `undefined`; the
model's output is always the 2-element pair, on which `getD` agrees.) -/
def postprocess (probabilities : List ℚ) : PredictionResult :=
  let probNormal := probabilities.getD 0 0
  let probFraud := probabilities.getD 1 0
  let prediction := if probFraud > PREDICTION_THRESHOLDS_fraud then "Fraud" else "Normal"
  let confidenceScore := max probNormal probFraud
  let riskLevel := getRiskLevel probFraud
  { prediction := prediction
    confidence_score := confidenceScore
    probability_fraud := probFraud
    probability_normal := probNormal
    risk_level := riskLevel }

-- ===========================================================================
-- modelConfig.ts — feature names and validation
-- ===========================================================================

/-- `FEATURE_NAMES` from `modelConfig.ts`: the 30 model input slots in order. -/
def FEATURE_NAMES : List String :=
  ["Time",
   "V1", "V2", "V3", "V4", "V5", "V6", "V7", "V8", "V9", "V10",
   "V11", "V12", "V13", "V14", "V15", "V16", "V17", "V18", "V19", "V20",
   "V21", "V22", "V23", "V24", "V25", "V26", "V27", "V28",
   "Amount"]

/-- `FEATURE_VALIDATION` from `modelConfig.ts`: per-feature (min, max) ranges —
`Time` [-5,5], `Amount` [-5,10], every `V1..V28` [-10,10]. -/
def FEATURE_VALIDATION : List (String × (ℚ × ℚ)) :=
  [("Time", (-5, 5)), ("Amount", (-5, 10))] ++
    (List.range 28).map (fun i => ("V" ++ toString (i + 1), ((-10 : ℚ), (10 : ℚ))))

/-- The JS number-to-string rendering of the range bounds (all integral). -/
def ratBoundStr (q : ℚ) : String := toString q.num

/-- The two error messages `validateFeatureValues` can emit for one feature:
a range message (NaN compares false, so never out of range) and an
invalid-value message for non-finite values. -/
def featureErrors (value : JSNum) (featureName : String) : List String :=
  match (FEATURE_VALIDATION.find? (fun p => p.1 == featureName)).map (fun p => p.2) with
  | none => []
  | some (mn, mx) =>
    (if jsLt value (.num mn) || jsGt value (.num mx) then
      [featureName ++ " value " ++ toFixedStr 2 value ++ " outside valid range [" ++
        ratBoundStr mn ++ ", " ++ ratBoundStr mx ++ "]"]
     else []) ++
    (if !jsIsFinite value || jsIsNaN value then
      [featureName ++ " has invalid value: " ++ jsNumPlainStr value]
     else [])

/-- Result shape of `validateFeatureValues`. -/
structure ValidationResult where
  valid : Bool
  errors : List String
deriving DecidableEq

/-- `validateFeatureValues` from `modelConfig.ts`: length must be 30, then
every feature is checked against its range and for NaN/∞, accumulating all
error messages. -/
def validateFeatureValues (features : List JSNum) : ValidationResult :=
  if features.length ≠ 30 then
    { valid := false
      errors := ["Expected 30 features, got " ++ toString features.length] }
  else
    let errors := ((features.zip FEATURE_NAMES).map (fun p => featureErrors p.1 p.2)).flatten
    { valid := errors.length == 0, errors := errors }

-- ===========================================================================
-- ONNXInference — transaction, cache, engine state, predict
-- ===========================================================================

/-- A `ProcessedTransaction` as a JS object: named numeric fields (a field
absent from the list models an `undefined` slot). -/
def Transaction := List (String × JSNum)

/-- JS member access `transaction[name]`. -/
def txGet (t : Transaction) (k : String) : Option JSNum :=
  (t.find? (fun p => p.1 == k)).map (fun p => p.2)

/-- One iteration of the `transactionToFeatures` loop: push the named
value, or throw (an already-thrown error propagates). -/
def ttfStep (t : Transaction) (acc : Except String (List JSNum)) (name : String) :
    Except String (List JSNum) :=
  match acc with
  | .error e => .error e
  | .ok fs =>
    match txGet t name with
    | some v => .ok (fs ++ [v])
    | none => .error ("Missing or invalid feature: " ++ name)

/-- `ONNXInference.transactionToFeatures`: walk `FEATURE_NAMES`, pushing each
value; a missing (non-number) slot throws immediately, naming only that
first slot. -/
def transactionToFeatures (t : Transaction) : Except String (List JSNum) :=
  FEATURE_NAMES.foldl (ttfStep t) (.ok [])

/-- `ONNXInference.getCacheKey`: `[Time, V1, V2, Amount].map(v => v.toFixed(4)).join('_')`.
If one of the four slots is `undefined`, JS throws a `TypeError`
(`undefined.toFixed`), modelled as an error. -/
def getCacheKey (t : Transaction) : Except String String :=
  match txGet t "Time", txGet t "V1", txGet t "V2", txGet t "Amount" with
  | some a, some b, some c, some d =>
    .ok (toFixedStr 4 a ++ "_" ++ toFixedStr 4 b ++ "_" ++ toFixedStr 4 c ++ "_" ++
      toFixedStr 4 d)
  | _, _, _, _ => .error "TypeError: Cannot read properties of undefined (reading toFixed)"

/-- A prediction-cache entry (`CacheEntry` in `ONNXInference.ts`);
`timestamp` is the `Date.now()` reading (ms) at insertion. -/
structure CacheEntry where
  input : String
  result : InferenceResult
  timestamp : ℤ
deriving DecidableEq

/-- JS `Map.get` on the insertion-ordered entry list. -/
def jsMapGet (k : String) (m : List (String × CacheEntry)) : Option CacheEntry :=
  (m.find? (fun p => p.1 == k)).map (fun p => p.2)

/-- JS `Map.delete`. -/
def jsMapDelete (k : String) (m : List (String × CacheEntry)) :
    List (String × CacheEntry) :=
  m.filter (fun p => p.1 != k)

/-- JS `Map.set`: update the entry in place if the key exists (a `Map`
holds each key at most once), else append — insertion order preserved. -/
def jsMapSet (k : String) (v : CacheEntry) : List (String × CacheEntry) →
    List (String × CacheEntry)
  | [] => [(k, v)]
  | hd :: tl => if hd.1 == k then (k, v) :: tl else hd :: jsMapSet k v tl

/-- `maxCacheSize` (fixed capacity 100). -/
def maxCacheSize : ℕ := 100

/-- The cache TTL: `60 * 60 * 1000` ms. -/
def CACHE_MAX_AGE_MS : ℤ := 3600000

/-- `ONNXInference.getFromCache`, with the key already computed: a miss
leaves the cache alone; an entry older than the TTL is deleted and reported
as a miss; otherwise the stored result is returned. -/
def getFromCacheWithKey (cache : List (String × CacheEntry)) (key : String) (now : ℤ) :
    Option InferenceResult × List (String × CacheEntry) :=
  match jsMapGet key cache with
  | none => (none, cache)
  | some entry =>
    if now - entry.timestamp > CACHE_MAX_AGE_MS then (none, jsMapDelete key cache)
    else (some entry.result, cache)

/-- `ONNXInference.addToCache`: if at capacity, delete the first-inserted
key (the JS code guards with a truthiness check on the key, hence the
`≠ ""` test), then `set` the new entry. -/
def addToCache (cache : List (String × CacheEntry)) (key : String)
    (result : InferenceResult) (now : ℤ) : List (String × CacheEntry) :=
  let cache1 :=
    if maxCacheSize ≤ cache.length then
      match cache.head? with
      | some (firstKey, _) => if firstKey ≠ "" then jsMapDelete firstKey cache else cache
      | none => cache
    else cache
  jsMapSet key { input := key, result := result, timestamp := now } cache1

/-- `ERROR_MESSAGES.MODEL_NOT_LOADED`. -/
def MODEL_NOT_LOADED : String := "Model has not been loaded. Call loadModel() first."

/-- `ERROR_MESSAGES.INVALID_INPUT_VALUES`. -/
def INVALID_INPUT_VALUES : String :=
  "Invalid input values. All features must be valid numbers."

/-- The mutable fields of an `ONNXInference` instance: the loaded flag
(standing for `isModelLoaded`/`session`), the prediction cache and the
performance counters. -/
structure EngineState where
  isModelLoaded : Bool
  cache : List (String × CacheEntry)
  totalPredictions : ℕ
  totalInferenceTime : ℚ
  cacheHits : ℕ
  cacheMisses : ℕ

/-- A freshly constructed engine (after `loadModel` when `loaded`). -/
def initEngineState (loaded : Bool) : EngineState :=
  { isModelLoaded := loaded, cache := [], totalPredictions := 0
    totalInferenceTime := 0, cacheHits := 0, cacheMisses := 0 }

/-- Outcome of one `predict` call: the returned (or thrown) result, the
engine state afterwards, and how many times the model was invoked. -/
structure PredictOutcome where
  result : Except String InferenceResult
  state : EngineState
  modelCalls : ℕ

/-- The miss path of `predict` (after the cache check): count the miss,
convert the transaction to features (throwing at the first missing slot),
validate, invoke the model, post-process, update the counters and cache
the result.  `mdl` is the opaque model (`runInference` with the ONNX
session), `inferenceTime` the elapsed-time reading, `key?` the cache key
when caching is on (already computed by the cache check). -/
def predictMiss (mdl : List JSNum → List ℚ) (inferenceTime : ℚ) (now : ℤ)
    (s : EngineState) (t : Transaction) (useCache : Bool) (key? : Option String) :
    PredictOutcome :=
  let s1 := { s with cacheMisses := s.cacheMisses + 1 }
  match transactionToFeatures t with
  | .error e => { result := .error e, state := s1, modelCalls := 0 }
  | .ok features =>
    let validation := validateFeatureValues features
    if validation.valid = false then
      { result := .error (INVALID_INPUT_VALUES ++ "\n" ++
          String.intercalate "\n" validation.errors)
        state := s1, modelCalls := 0 }
    else
      let probabilities := mdl features
      let result := postprocess probabilities
      let s2 := { s1 with totalPredictions := s1.totalPredictions + 1
                          totalInferenceTime := s1.totalInferenceTime + inferenceTime }
      let inferenceResult : InferenceResult := { result with cached := false }
      let s3 :=
        if useCache then
          match key? with
          | some key => { s2 with cache := addToCache s2.cache key inferenceResult now }
          | none => s2
        else s2
      { result := .ok inferenceResult, state := s3, modelCalls := 1 }

/-- `ONNXInference.predict`: refuse when not loaded; with caching on,
compute the fingerprint and return a fresh-enough cached result marked
`cached = true` (counting a hit) without touching the model; otherwise run
the miss path. -/
def predict (mdl : List JSNum → List ℚ) (inferenceTime : ℚ) (now : ℤ)
    (s : EngineState) (t : Transaction) (useCache : Bool) : PredictOutcome :=
  if s.isModelLoaded = false then
    { result := .error MODEL_NOT_LOADED, state := s, modelCalls := 0 }
  else if useCache then
    match getCacheKey t with
    | .error e => { result := .error e, state := s, modelCalls := 0 }
    | .ok key =>
      match getFromCacheWithKey s.cache key now with
      | (some result, cache') =>
        { result := .ok { result with cached := true }
          state := { s with cache := cache', cacheHits := s.cacheHits + 1 }
          modelCalls := 0 }
      | (none, cache') =>
        predictMiss mdl inferenceTime now { s with cache := cache' } t useCache (some key)
  else
    predictMiss mdl inferenceTime now s t false none

/-- `ONNXInference.getStats` output. -/
structure Stats where
  totalPredictions : ℕ
  avgInferenceTime : ℚ
  cacheHitRate : ℚ
  cacheSize : ℕ

/-- `ONNXInference.getStats`. -/
def getStats (s : EngineState) : Stats :=
  { totalPredictions := s.totalPredictions
    avgInferenceTime :=
      if 0 < s.totalPredictions then s.totalInferenceTime / (s.totalPredictions : ℚ) else 0
    cacheHitRate :=
      if 0 < s.cacheHits + s.cacheMisses then
        (s.cacheHits : ℚ) / ((s.cacheHits + s.cacheMisses : ℕ) : ℚ)
      else 0
    cacheSize := s.cache.length }

/-- One queued `predict` call (the elapsed-time and clock readings are per
call; the model is fixed for the engine). -/
structure PredictRequest where
  inferenceTime : ℚ
  now : ℤ
  transaction : Transaction
  useCache : Bool

/-- Run a sequence of `predict` calls, threading the engine state. -/
def runPredicts (mdl : List JSNum → List ℚ) (s : EngineState) :
    List PredictRequest → EngineState
  | [] => s
  | r :: rs =>
    runPredicts mdl (predict mdl r.inferenceTime r.now s r.transaction r.useCache).state rs

-- ===========================================================================
-- TemporalFeatures.ts / RiskIndicators.ts — hours and unusual-hour flag
-- ===========================================================================

/-- The default reference instant `Date('2013-09-01T00:00:00Z')` in epoch ms. -/
def REFERENCE_TIME_MS : ℤ := 1377993600000

/-- `date.getHours()` on an epoch-ms instant, with the environment's
timezone taken as UTC (offset zero): the hour-of-day in `0..23`.
Euclidean division/mod match the calendar arithmetic for instants before
the epoch as well. -/
def getHours (tMs : ℤ) : ℤ := (tMs.ediv 3600000).emod 24

/-- `isUnusualHour` (identical in `TemporalFeatureExtractor` and
`RiskIndicatorCalculator`):
`(hour >= 1 && hour <= 5) || (hour >= 23 && hour <= 24)`. -/
def isUnusualHour (dateMs : ℤ) : Bool :=
  let hour := getHours dateMs
  (decide (1 ≤ hour) && decide (hour ≤ 5)) || (decide (23 ≤ hour) && decide (hour ≤ 24))

/-- `getSecondsFromReference`: `Math.floor((t - reference) / 1000)`. -/
def secondsFromReference (tsMs : ℤ) : ℤ := (tsMs - REFERENCE_TIME_MS).ediv 1000

-- ===========================================================================
-- FraudPreprocessor (app/dashboard) — raw-vs-processed and vector assembly
-- ===========================================================================

/-- The input object given to `FraudPreprocessor.preprocess`: the raw-mode
fields and the processed-mode numeric slots, each possibly absent. -/
structure DashInput where
  timestamp : Option ℤ
  amount : Option ℚ
  country_code : Option String
  channel : Option String
  numeric : List (String × JSNum)
deriving DecidableEq

/-- `isRawTransaction`: `'timestamp' in input && !('V1' in input)`. -/
def isRawTransaction (i : DashInput) : Bool :=
  i.timestamp.isSome && !(txGet i.numeric "V1").isSome

/-- `SAMPLE_NORMAL` from `lib/utils/sampleData.ts`: the saved
pre-processed legitimate transaction used as the PCA baseline. -/
def SAMPLE_NORMAL : List (String × JSNum) :=
  [("Time", .num 1.3871815012213498),
   ("V1", .num (-0.674466064578314)),
   ("V2", .num 1.40810501967799),
   ("V3", .num (-1.11062205357093)),
   ("V4", .num (-1.32836577843066)),
   ("V5", .num 1.38899603254837),
   ("V6", .num (-1.30843906707795)),
   ("V7", .num 1.88587890268717),
   ("V8", .num (-0.614232966299775)),
   ("V9", .num 0.311652212453101),
   ("V10", .num 0.65075700363522),
   ("V11", .num (-0.857784661547805)),
   ("V12", .num (-0.229961445775592)),
   ("V13", .num (-0.19981700479103)),
   ("V14", .num 0.266371326329879),
   ("V15", .num (-0.0465441684754424)),
   ("V16", .num (-0.741398089749789)),
   ("V17", .num (-0.605616644106022)),
   ("V18", .num (-0.39256818789208)),
   ("V19", .num (-0.162648311024695)),
   ("V20", .num 0.394321820843914),
   ("V21", .num 0.0800842396026648),
   ("V22", .num 0.810033595602455),
   ("V23", .num (-0.224327230436412)),
   ("V24", .num 0.707899237446867),
   ("V25", .num (-0.13583702273753)),
   ("V26", .num 0.0451021964988772),
   ("V27", .num 0.533837219064273),
   ("V28", .num 0.291319252625364),
   ("Amount", .num (-0.25995438915074587))]

/-- `getDefaultVFeatures`: `SAMPLE_NORMAL` minus its `Time` and `Amount`
fields (the destructuring `const (Time, Amount, ...vFeatures)`). -/
def getDefaultVFeatures : List (String × JSNum) :=
  SAMPLE_NORMAL.filter (fun p => p.1 != "Time" && p.1 != "Amount")

/-- `AmountFeatureExtractor`'s `scaled_amount`:
`scaler.transformSingle('Amount', amount)` with the pre-trained scaler; an
absent amount propagates to NaN in JS.  (The extractor's other outputs —
log, decimal places, roundness, percentile — are not consumed by
`convertToModelInput` and are not modelled.) -/
def scaledAmountOf (amount : Option ℚ) : JSNum :=
  match amount with
  | some a => .num (transformSingle pretrainedScalerParams "Amount" a)
  | none => .nan

/-- `FraudPreprocessor.convertToModelInput`: `Time` scaled from
`seconds_from_first`, the 28 PCA slots from the fixed baseline, `Amount`
from the amount extractor's scaled value — in that JS property order. -/
def convertToModelInput (tsMs : ℤ) (amount : Option ℚ) : List (String × JSNum) :=
  ("Time",
    .num (transformSingle pretrainedScalerParams "Time" ((secondsFromReference tsMs : ℤ) : ℚ)))
    :: getDefaultVFeatures ++ [("Amount", scaledAmountOf amount)]

/-- `FraudPreprocessor.preprocess`, restricted to the outputs the claims
are about: the assembled `modelInput` and the `isRawInput` flag (the
feature report, wall-clock timing and `hasAllFeatures` metadata are not
modelled).  A raw input is converted; anything else passes through
unchanged.  The inner `none` branch is unreachable: `isRawTransaction`
requires a present timestamp. -/
def preprocess (i : DashInput) : DashInput × Bool :=
  if isRawTransaction i then
    match i.timestamp with
    | some ts =>
      ({ timestamp := none, amount := none, country_code := none, channel := none
         numeric := convertToModelInput ts i.amount }, true)
    | none => (i, true)
  else (i, false)

-- ===========================================================================
-- Auxiliary definitions for the verification
-- ===========================================================================

/-- Scaler parameters storing `std = 0` for feature `"f"` (mean 5). -/
def zeroStdParams : ScalerParams := { mean := [("f", 5)], std := [("f", 0)] }

/-- A raw dashboard input: timestamp and amount only. -/
def dashRawExample : DashInput :=
  { timestamp := some 1378000000000, amount := some 100
    country_code := none, channel := none, numeric := [] }

/-- Cache well-formedness: within capacity, and no entry under the empty
key (every key the engine ever inserts is a `getCacheKey` fingerprint,
which always contains `_`). -/
def cacheWF (m : List (String × CacheEntry)) : Prop :=
  m.length ≤ maxCacheSize ∧ ∀ p ∈ m, p.1 ≠ ""

/-- The first entry of `FEATURE_NAMES` missing from a transaction. -/
def firstMissingFeature (t : Transaction) : Option String :=
  FEATURE_NAMES.find? (fun n => (txGet t n).isNone)

/-- A complete all-zero pre-processed transaction (all 30 slots present,
each within its validation range). -/
def tx0 : Transaction := FEATURE_NAMES.map (fun n => (n, JSNum.num 0))

/-- An incomplete pre-processed transaction: the `V3` and `V5` slots are
missing, the other 28 are present (zero). -/
def tx28 : Transaction :=
  (FEATURE_NAMES.filter (fun n => n != "V3" && n != "V5")).map (fun n => (n, JSNum.num 0))

/-- A concrete opaque model: always `[P(Normal), P(Fraud)] = [0.7, 0.3]`. -/
def constModel : List JSNum → List ℚ := fun _ => [0.7, 0.3]

/-- An arbitrary concrete prediction result. -/
def dummyResult : InferenceResult :=
  { prediction := "Normal", confidence_score := 1, probability_fraud := 0
    probability_normal := 1, risk_level := "Low", cached := false }

/-- An arbitrary concrete cache entry (key `"a"`, inserted at time 0). -/
def dummyEntry : CacheEntry := { input := "a", result := dummyResult, timestamp := 0 }

/-- The 30-element all-zero feature vector `transactionToFeatures` builds
from `tx0`. -/
def feats0 : List JSNum := List.replicate 30 (JSNum.num 0)

/-- The cache fingerprint of `tx0` (and of any transaction whose `Time`,
`V1`, `V2`, `Amount` slots are 0). -/
def cacheKey0 : String := "0.0000_0.0000_0.0000_0.0000"

/-- A loaded engine holding one cache entry under `tx0`'s fingerprint,
inserted at time 0. -/
def engineWithEntry : EngineState :=
  { isModelLoaded := true
    cache := [(cacheKey0, { input := cacheKey0, result := dummyResult, timestamp := 0 })]
    totalPredictions := 0, totalInferenceTime := 0, cacheHits := 0, cacheMisses := 0 }

/-- A complete transaction whose `V7` slot is `NaN` (all others 0). -/
def txNaN : Transaction :=
  FEATURE_NAMES.map (fun n => (n, if n = "V7" then JSNum.nan else JSNum.num 0))

/-- The feature vector `transactionToFeatures` builds from `txNaN`. -/
def featsN : List JSNum :=
  FEATURE_NAMES.map (fun n => if n = "V7" then JSNum.nan else JSNum.num 0)

-- ===========================================================================
-- Helper lemmas: the cache map
-- ===========================================================================

theorem jsMapGet_cons (k' a : String) (e : CacheEntry) (tl : List (String × CacheEntry)) :
    jsMapGet k' ((a, e) :: tl) = if a == k' then some e else jsMapGet k' tl := by
  by_cases h : (a == k') = true
  · simp [jsMapGet, List.find?_cons_of_pos, h]
  · simp only [Bool.not_eq_true] at h
    simp [jsMapGet, List.find?_cons_of_neg, h]

theorem jsMapGet_set_self (k : String) (v : CacheEntry) (m : List (String × CacheEntry)) :
    jsMapGet k (jsMapSet k v m) = some v := by
  induction m with
  | nil => simp [jsMapSet, jsMapGet_cons]
  | cons hd tl ih =>
    obtain ⟨a, e⟩ := hd
    by_cases h : (a == k) = true
    · simp [jsMapSet, h, jsMapGet_cons]
    · simp only [Bool.not_eq_true] at h
      simp [jsMapSet, h, jsMapGet_cons, ih]

theorem jsMapGet_set_ne (k k' : String) (v : CacheEntry) (m : List (String × CacheEntry))
    (hne : k' ≠ k) : jsMapGet k' (jsMapSet k v m) = jsMapGet k' m := by
  have hkk' : (k == k') = false := by simp [Ne.symm hne]
  induction m with
  | nil => simp [jsMapSet, jsMapGet_cons, hkk', jsMapGet]
  | cons hd tl ih =>
    obtain ⟨a, e⟩ := hd
    by_cases h : (a == k) = true
    · have hak' : (a == k') = false := by
        simp only [beq_iff_eq] at h
        simp [h, Ne.symm hne]
      simp [jsMapSet, h, jsMapGet_cons, hkk', hak']
    · simp only [Bool.not_eq_true] at h
      simp only [jsMapSet, h, if_neg, Bool.false_eq_true, not_false_iff]
      rw [jsMapGet_cons, jsMapGet_cons, ih]

theorem jsMapGet_delete_self (k : String) (m : List (String × CacheEntry)) :
    jsMapGet k (jsMapDelete k m) = none := by
  simp only [jsMapGet, jsMapDelete, Option.map_eq_none']
  rw [List.find?_eq_none]
  intro x hx
  have := (List.mem_filter.mp hx).2
  simp only [bne_iff_ne, ne_eq] at this
  simp [this]

theorem jsMapSet_length_le (k : String) (v : CacheEntry) (m : List (String × CacheEntry)) :
    (jsMapSet k v m).length ≤ m.length + 1 := by
  induction m with
  | nil => simp [jsMapSet]
  | cons hd tl ih =>
    by_cases h : (hd.1 == k) = true
    · simp [jsMapSet, h]
    · simp only [Bool.not_eq_true] at h
      simp only [jsMapSet, h, if_neg, Bool.false_eq_true, not_false_iff, List.length_cons]
      omega

theorem jsMapDelete_length_le (k : String) (m : List (String × CacheEntry)) :
    (jsMapDelete k m).length ≤ m.length :=
  List.length_filter_le _ _

theorem jsMapDelete_head_length (a : String) (e : CacheEntry)
    (tl : List (String × CacheEntry)) :
    (jsMapDelete a ((a, e) :: tl)).length ≤ tl.length := by
  simp only [jsMapDelete, List.filter_cons, bne_self_eq_false, Bool.false_eq_true, if_neg,
    not_false_iff]
  exact List.length_filter_le _ _

theorem mem_jsMapSet (k : String) (v : CacheEntry) (m : List (String × CacheEntry))
    (p : String × CacheEntry) (hp : p ∈ jsMapSet k v m) : p ∈ m ∨ p.1 = k := by
  induction m with
  | nil => simp [jsMapSet] at hp; simp [hp]
  | cons hd tl ih =>
    by_cases h : (hd.1 == k) = true
    · simp only [jsMapSet, h, if_pos] at hp
      rcases List.mem_cons.mp hp with h1 | h1
      · right; rw [h1]
      · left; exact List.mem_cons_of_mem _ h1
    · simp only [Bool.not_eq_true] at h
      simp only [jsMapSet, h, Bool.false_eq_true, if_neg, not_false_iff] at hp
      rcases List.mem_cons.mp hp with h1 | h1
      · left; rw [h1]; exact List.mem_cons_self _ _
      · rcases ih h1 with h2 | h2
        · left; exact List.mem_cons_of_mem _ h2
        · right; exact h2

-- ===========================================================================
-- Helper lemmas: cache well-formedness through predict
-- ===========================================================================

theorem cacheWF_delete (k : String) (m : List (String × CacheEntry)) (h : cacheWF m) :
    cacheWF (jsMapDelete k m) := by
  refine ⟨le_trans (jsMapDelete_length_le k m) h.1, ?_⟩
  intro p hp
  exact h.2 p (List.mem_filter.mp hp).1

theorem cacheWF_addToCache (m : List (String × CacheEntry)) (k : String)
    (r : InferenceResult) (now : ℤ) (h : cacheWF m) (hk : k ≠ "") :
    cacheWF (addToCache m k r now) := by
  have hmax : maxCacheSize = 100 := rfl
  have hmemset : ∀ m' : List (String × CacheEntry), m'.length ≤ 99 →
      (∀ p ∈ m', p.1 ≠ "") →
      cacheWF (jsMapSet k { input := k, result := r, timestamp := now } m') := by
    intro m' h1 h2
    constructor
    · have := jsMapSet_length_le k { input := k, result := r, timestamp := now } m'
      omega
    · intro p hp
      rcases mem_jsMapSet _ _ _ _ hp with h3 | h3
      · exact h2 p h3
      · rw [h3]; exact hk
  unfold addToCache
  by_cases hfull : maxCacheSize ≤ m.length
  · rw [if_pos hfull]
    match hm : m with
    | [] => simp [maxCacheSize] at hfull
    | (a, e) :: tl =>
      have ha : a ≠ "" := h.2 (a, e) (List.mem_cons_self _ _)
      simp only [List.head?_cons, ne_eq, ha, not_false_iff, if_pos]
      apply hmemset
      · have h1 := jsMapDelete_head_length a e tl
        have h2 : tl.length + 1 ≤ maxCacheSize := by
          simpa using h.1
        omega
      · intro p hp
        exact h.2 p (List.mem_filter.mp hp).1
  · rw [if_neg hfull]
    apply hmemset
    · omega
    · exact h.2

theorem getCacheKey_ok_ne_empty (t : Transaction) (k : String)
    (h : getCacheKey t = .ok k) : k ≠ "" := by
  unfold getCacheKey at h
  split at h
  · intro hk
    rw [hk] at h
    have hlen := congrArg String.length (Except.ok.inj h)
    simp only [String.length_append] at hlen
    have h1 : ("_" : String).length = 1 := rfl
    have h0 : ("" : String).length = 0 := rfl
    omega
  · exact absurd h (by simp)

set_option maxHeartbeats 1000000 in
theorem predictMiss_cacheWF (mdl : List JSNum → List ℚ) (iT : ℚ) (now : ℤ)
    (s : EngineState) (t : Transaction) (u : Bool) (key? : Option String)
    (h : cacheWF s.cache) (hkey : ∀ k, key? = some k → k ≠ "") :
    cacheWF (predictMiss mdl iT now s t u key?).state.cache := by
  unfold predictMiss
  split
  · exact h
  · dsimp only
    split
    · exact h
    · dsimp only
      split
      · split
        · rename_i key
          dsimp only
          exact cacheWF_addToCache _ _ _ _ h (hkey key rfl)
        · exact h
      · exact h

set_option maxHeartbeats 1000000 in
theorem predict_cacheWF (mdl : List JSNum → List ℚ) (iT : ℚ) (now : ℤ)
    (s : EngineState) (t : Transaction) (u : Bool) (h : cacheWF s.cache) :
    cacheWF (predict mdl iT now s t u).state.cache := by
  unfold predict
  split
  · exact h
  · split
    · split
      · exact h
      · rename_i key hkeyok
        have hk : key ≠ "" := getCacheKey_ok_ne_empty t key hkeyok
        split
        · rename_i r cache' hpair
          have hwf : cacheWF cache' := by
            unfold getFromCacheWithKey at hpair
            split at hpair
            · simp at hpair
            · split at hpair
              · simp at hpair
              · rw [← (Prod.mk.inj hpair).2]
                exact h
          exact hwf
        · rename_i cache' hpair
          have hwf : cacheWF cache' := by
            unfold getFromCacheWithKey at hpair
            split at hpair
            · rw [← (Prod.mk.inj hpair).2]; exact h
            · split at hpair
              · rw [← (Prod.mk.inj hpair).2]
                exact cacheWF_delete _ _ h
              · simp at hpair
          apply predictMiss_cacheWF _ _ _ _ _ _ _ hwf
          intro k2 hk2
          rw [← Option.some.inj hk2]
          exact hk
    · exact predictMiss_cacheWF _ _ _ _ _ _ _ h (by intro k hk; simp at hk)

theorem runPredicts_cacheWF (mdl : List JSNum → List ℚ) (s : EngineState)
    (reqs : List PredictRequest) (h : cacheWF s.cache) :
    cacheWF (runPredicts mdl s reqs).cache := by
  induction reqs generalizing s with
  | nil => exact h
  | cons r rs ih => exact ih _ (predict_cacheWF _ _ _ _ _ _ h)

-- ===========================================================================
-- Helper lemmas: predict path equations, feature walk and validation
-- ===========================================================================

theorem predict_hit_eq (mdl : List JSNum → List ℚ) (iT : ℚ) (now : ℤ)
    (s : EngineState) (t : Transaction) (k : String) (entry : CacheEntry)
    (hload : s.isModelLoaded = true)
    (hkey : getCacheKey t = .ok k)
    (hentry : jsMapGet k s.cache = some entry)
    (httl : now - entry.timestamp ≤ CACHE_MAX_AGE_MS) :
    predict mdl iT now s t true =
      { result := .ok { entry.result with cached := true }
        state := { s with cacheHits := s.cacheHits + 1 }
        modelCalls := 0 } := by
  have hfc : getFromCacheWithKey s.cache k now = (some entry.result, s.cache) := by
    unfold getFromCacheWithKey
    rw [hentry]
    dsimp only
    rw [if_neg (not_lt.mpr httl)]
  unfold predict
  rw [hload]
  simp only [Bool.true_eq_false, if_neg, not_false_iff, if_pos, hkey, hfc]

theorem predict_miss_success_eq (mdl : List JSNum → List ℚ) (iT : ℚ) (now : ℤ)
    (s : EngineState) (t : Transaction) (k : String) (fs : List JSNum)
    (hload : s.isModelLoaded = true)
    (hkey : getCacheKey t = .ok k)
    (hmiss : jsMapGet k s.cache = none)
    (hfeat : transactionToFeatures t = .ok fs)
    (hvalid : (validateFeatureValues fs).valid = true) :
    predict mdl iT now s t true =
      { result := .ok { toPredictionResult := postprocess (mdl fs), cached := false }
        state := { s with cacheMisses := s.cacheMisses + 1
                          totalPredictions := s.totalPredictions + 1
                          totalInferenceTime := s.totalInferenceTime + iT
                          cache := addToCache s.cache k
                            { toPredictionResult := postprocess (mdl fs), cached := false } now }
        modelCalls := 1 } := by
  have hfc : getFromCacheWithKey s.cache k now = (none, s.cache) := by
    unfold getFromCacheWithKey
    rw [hmiss]
  unfold predict
  rw [hload]
  simp only [Bool.true_eq_false, if_neg, not_false_iff, if_pos, hkey, hfc]
  unfold predictMiss
  rw [hfeat]
  dsimp only
  rw [hvalid]
  simp only [Bool.true_eq_false, if_neg, not_false_iff]
  simp


theorem predict_miss_transform_error_eq (mdl : List JSNum → List ℚ) (iT : ℚ) (now : ℤ)
    (s : EngineState) (t : Transaction) (k : String) (e : String)
    (hload : s.isModelLoaded = true)
    (hkey : getCacheKey t = .ok k)
    (hmiss : jsMapGet k s.cache = none)
    (hfeat : transactionToFeatures t = .error e) :
    predict mdl iT now s t true =
      { result := .error e
        state := { s with cacheMisses := s.cacheMisses + 1 }
        modelCalls := 0 } := by
  have hfc : getFromCacheWithKey s.cache k now = (none, s.cache) := by
    unfold getFromCacheWithKey
    rw [hmiss]
  unfold predict
  rw [hload]
  simp only [Bool.true_eq_false, if_neg, not_false_iff, if_pos, hkey, hfc]
  unfold predictMiss
  rw [hfeat]

theorem predict_miss_invalid_eq (mdl : List JSNum → List ℚ) (iT : ℚ) (now : ℤ)
    (s : EngineState) (t : Transaction) (k : String) (fs : List JSNum)
    (hload : s.isModelLoaded = true)
    (hkey : getCacheKey t = .ok k)
    (hmiss : jsMapGet k s.cache = none)
    (hfeat : transactionToFeatures t = .ok fs)
    (hvalid : (validateFeatureValues fs).valid = false) :
    predict mdl iT now s t true =
      { result := .error (INVALID_INPUT_VALUES ++ "\n" ++
          String.intercalate "\n" (validateFeatureValues fs).errors)
        state := { s with cacheMisses := s.cacheMisses + 1 }
        modelCalls := 0 } := by
  have hfc : getFromCacheWithKey s.cache k now = (none, s.cache) := by
    unfold getFromCacheWithKey
    rw [hmiss]
  unfold predict
  rw [hload]
  simp only [Bool.true_eq_false, if_neg, not_false_iff, if_pos, hkey, hfc]
  unfold predictMiss
  rw [hfeat]
  dsimp only
  rw [hvalid]
  simp

set_option maxHeartbeats 1000000 in
theorem predictMiss_totalPredictions (mdl : List JSNum → List ℚ) (iT : ℚ) (now : ℤ)
    (s : EngineState) (t : Transaction) (u : Bool) (key? : Option String) :
    (predictMiss mdl iT now s t u key?).state.totalPredictions =
      s.totalPredictions + (predictMiss mdl iT now s t u key?).modelCalls := by
  unfold predictMiss
  split
  · simp
  · dsimp only
    split
    · simp
    · dsimp only
      split
      · split <;> simp
      · simp

set_option maxHeartbeats 1000000 in
theorem predict_totalPredictions (mdl : List JSNum → List ℚ) (iT : ℚ) (now : ℤ)
    (s : EngineState) (t : Transaction) (u : Bool) :
    (predict mdl iT now s t u).state.totalPredictions =
      s.totalPredictions + (predict mdl iT now s t u).modelCalls := by
  unfold predict
  split
  · simp
  · split
    · split
      · simp
      · split
        · simp
        · rename_i cache' hpair
          rw [predictMiss_totalPredictions]
    · rw [predictMiss_totalPredictions]


theorem ttf_foldl_error (t : Transaction) (e : String) (names : List String) :
    names.foldl (ttfStep t) (.error e) = .error e := by
  induction names with
  | nil => rfl
  | cons n ns ih => simp [ttfStep, ih]

theorem ttf_aux (t : Transaction) (names : List String) (acc : List JSNum) :
    (∀ name, names.find? (fun n => (txGet t n).isNone) = some name →
      names.foldl (ttfStep t) (.ok acc) = .error ("Missing or invalid feature: " ++ name)) ∧
    (names.find? (fun n => (txGet t n).isNone) = none →
      ∃ fs, names.foldl (ttfStep t) (.ok acc) = .ok fs ∧
        fs.length = acc.length + names.length) := by
  induction names generalizing acc with
  | nil =>
    constructor
    · intro name h
      simp at h
    · intro _
      exact ⟨acc, rfl, by simp⟩
  | cons n ns ih =>
    cases hv : txGet t n with
    | none =>
      have hp : ((txGet t n).isNone) = true := by rw [hv]; rfl
      constructor
      · intro name h
        rw [@List.find?_cons_of_pos _ (fun n => (txGet t n).isNone) n ns hp] at h
        have hn : n = name := Option.some.inj h
        subst hn
        simp only [List.foldl_cons, ttfStep, hv]
        exact ttf_foldl_error t _ ns
      · intro h
        rw [@List.find?_cons_of_pos _ (fun n => (txGet t n).isNone) n ns hp] at h
        exact absurd h (by simp)
    | some v =>
      have hp : ((txGet t n).isNone) = false := by rw [hv]; rfl
      have hstep : ttfStep t (.ok acc) n = .ok (acc ++ [v]) := by
        simp [ttfStep, hv]
      constructor
      · intro name h
        rw [@List.find?_cons_of_neg _ (fun n => (txGet t n).isNone) n ns (by simp [hp])] at h
        simp only [List.foldl_cons, hstep]
        exact (ih (acc ++ [v])).1 name h
      · intro h
        rw [@List.find?_cons_of_neg _ (fun n => (txGet t n).isNone) n ns (by simp [hp])] at h
        obtain ⟨fs, hfs, hlen⟩ := (ih (acc ++ [v])).2 h
        exact ⟨fs, by simp only [List.foldl_cons, hstep]; exact hfs, by simp at hlen ⊢; omega⟩

theorem transactionToFeatures_missing (t : Transaction) (name : String)
    (h : firstMissingFeature t = some name) :
    transactionToFeatures t = .error ("Missing or invalid feature: " ++ name) :=
  (ttf_aux t FEATURE_NAMES []).1 name h

theorem transactionToFeatures_ok_length (t : Transaction) (fs : List JSNum)
    (h : transactionToFeatures t = .ok fs) : fs.length = 30 := by
  cases hm : firstMissingFeature t with
  | some name =>
    rw [transactionToFeatures_missing t name hm] at h
    exact absurd h (by simp)
  | none =>
    obtain ⟨fs', hfs', hlen⟩ := (ttf_aux t FEATURE_NAMES []).2 hm
    rw [show transactionToFeatures t = FEATURE_NAMES.foldl (ttfStep t) (.ok []) from rfl,
      hfs'] at h
    rw [← Except.ok.inj h]
    simpa using hlen

theorem feature_validation_isSome :
    ∀ name ∈ FEATURE_NAMES, (FEATURE_VALIDATION.find? (fun p => p.1 == name)).isSome = true := by
  decide

theorem invalid_value_mem_errors (fs : List JSNum) (h30 : fs.length = 30)
    (v : JSNum) (name : String) (hmem : (v, name) ∈ fs.zip FEATURE_NAMES)
    (hnf : jsIsFinite v = false) :
    (name ++ " has invalid value: " ++ jsNumPlainStr v) ∈ (validateFeatureValues fs).errors := by
  unfold validateFeatureValues
  rw [if_neg (by simp [h30])]
  dsimp only
  rw [List.mem_flatten]
  refine ⟨featureErrors v name, ?_, ?_⟩
  · have : featureErrors v name = (fun p : JSNum × String => featureErrors p.1 p.2) (v, name) := rfl
    rw [this]
    exact List.mem_map_of_mem _ hmem
  · unfold featureErrors
    have hval := feature_validation_isSome name (List.of_mem_zip hmem).2
    obtain ⟨pr, hpr⟩ := Option.isSome_iff_exists.mp hval
    rw [hpr]
    obtain ⟨mn, mx⟩ := pr.2
    dsimp only [Option.map_some']
    rw [hnf]
    simp


theorem jsMapGet_addToCache_self (m : List (String × CacheEntry)) (k : String)
    (r : InferenceResult) (now : ℤ) :
    jsMapGet k (addToCache m k r now) =
      some { input := k, result := r, timestamp := now } := by
  unfold addToCache
  exact jsMapGet_set_self _ _ _

theorem toFixedStr4_zero : toFixedStr 4 (.num 0) = "0.0000" := by
  norm_num [toFixedStr, toFixedInt, digitsString]
  rfl

theorem getCacheKey_tx0 : getCacheKey tx0 = .ok cacheKey0 := by
  unfold getCacheKey
  rw [show txGet tx0 "Time" = some (.num 0) from rfl,
      show txGet tx0 "V1" = some (.num 0) from rfl,
      show txGet tx0 "V2" = some (.num 0) from rfl,
      show txGet tx0 "Amount" = some (.num 0) from rfl]
  dsimp only
  rw [toFixedStr4_zero]
  rfl

theorem getCacheKey_tx28 : getCacheKey tx28 = .ok cacheKey0 := by
  unfold getCacheKey
  rw [show txGet tx28 "Time" = some (.num 0) from rfl,
      show txGet tx28 "V1" = some (.num 0) from rfl,
      show txGet tx28 "V2" = some (.num 0) from rfl,
      show txGet tx28 "Amount" = some (.num 0) from rfl]
  dsimp only
  rw [toFixedStr4_zero]
  rfl

theorem getCacheKey_txNaN : getCacheKey txNaN = .ok cacheKey0 := by
  unfold getCacheKey
  rw [show txGet txNaN "Time" = some (.num 0) from rfl,
      show txGet txNaN "V1" = some (.num 0) from rfl,
      show txGet txNaN "V2" = some (.num 0) from rfl,
      show txGet txNaN "Amount" = some (.num 0) from rfl]
  dsimp only
  rw [toFixedStr4_zero]
  rfl

-- ===========================================================================
-- Theorems
-- ===========================================================================

/-- C1.  The engine's `postprocess` does NOT map `P(Fraud)` through the
5-tier threshold table: the `getRiskLevel` it calls is the 3-tier
`lib/utils/index.ts` function.  At the probability pair
`[P(Normal), P(Fraud)] = [0.95, 0.05]` the code yields risk level `"Low"`
while the 5-tier mapping of the spec (and of the code's own
`PREDICTION_THRESHOLDS.risk_levels` table and declared `RiskLevel` union,
which does not even contain `"Low"`) yields `"VERY_LOW"`; likewise `0.95`
yields `"High"` rather than `"VERY_HIGH"`. -/
theorem claim_C1_risk_level_divergence :
    (postprocess [0.95, 0.05]).risk_level = "Low" ∧
    getRiskLevelSpec 0.05 = "VERY_LOW" ∧
    ("Low" : String) ∉ RISK_LEVEL_VALUES ∧
    (postprocess [0.05, 0.95]).risk_level = "High" ∧
    getRiskLevelSpec 0.95 = "VERY_HIGH" := by
  refine ⟨?_, ?_, by decide, ?_, ?_⟩ <;>
    norm_num [postprocess, getRiskLevel, getRiskLevelSpec,
      PREDICTION_THRESHOLDS_risk_levels]

/-- C2 counterexample.  For the stored parameters `mean["f"] = 5`,
`std["f"] = 0`, `transformSingle("f", 7)` returns `2 = 7 - 5`, not `0` as
the claim states (the `|| 1` default turns the stored `0` into `1` before
the `std === 0` guard, which is therefore dead), and the round-trip
returns `7` exactly — it does not collapse to the mean `5`. -/
theorem claim_C2_counterexample :
    transformSingle zeroStdParams "f" 7 = 2 ∧ (2 : ℚ) ≠ 0 ∧
    inverseTransformSingle zeroStdParams "f" (transformSingle zeroStdParams "f" 7) = 7 ∧
    ((7 : ℚ) ≠ 5) ∧
    inverseTransformSingle zeroStdParams "f" 0 = 5 := by
  norm_num [transformSingle, inverseTransformSingle, zeroStdParams, recLookup, jsOr,
    List.find?]

/-- C2 (amended).  For every feature whose STORED std parameter is `0`,
the JS `|| 1` default coerces the std to `1` before the zero-guard, so
`transformSingle(name, value) = value - mean[name]` (not `0`),
`inverseTransformSingle(name, 0) = mean[name]`, and the round-trip is
exact (not lossy). -/
theorem claim_C2_amended (p : ScalerParams) (f : String) (v m : ℚ)
    (hs : recLookup p.std f = some 0) (hm : recLookup p.mean f = some m) :
    transformSingle p f v = v - m ∧ inverseTransformSingle p f 0 = m ∧
    inverseTransformSingle p f (transformSingle p f v) = v := by
  have hjm : jsOr (some m) 0 = m := by
    by_cases h : m = 0 <;> simp [jsOr, h]
  have hj1 : jsOr (some 0) 1 = 1 := by simp [jsOr]
  refine ⟨?_, ?_, ?_⟩ <;>
    · simp only [transformSingle, inverseTransformSingle, hs, hm, hjm, hj1]
      norm_num

/-- Witness for C2 (amended) at `mean["f"] = 5`, `std["f"] = 0`, value 7. -/
theorem claim_C2_amended_witness :
    recLookup zeroStdParams.std "f" = some 0 ∧
    recLookup zeroStdParams.mean "f" = some 5 ∧
    (transformSingle zeroStdParams "f" 7 = 7 - 5 ∧
     inverseTransformSingle zeroStdParams "f" 0 = 5 ∧
     inverseTransformSingle zeroStdParams "f" (transformSingle zeroStdParams "f" 7) = 7) :=
  ⟨rfl, rfl, claim_C2_amended zeroStdParams "f" 7 5 rfl rfl⟩

/-- C3.  Whenever the effective std (`std[name] || 1`) is nonzero — which
includes every unknown feature name, defaulted to mean 0 and std 1 —
`inverseTransformSingle` is the exact inverse of `transformSingle`; and on
a name absent from both parameter records the scaling is a no-op rather
than a failure. -/
theorem claim_C3_roundtrip (p : ScalerParams) (f : String) (v : ℚ)
    (h : jsOr (recLookup p.std f) 1 ≠ 0) :
    inverseTransformSingle p f (transformSingle p f v) = v ∧
    (recLookup p.mean f = none → recLookup p.std f = none →
      transformSingle p f v = v ∧ inverseTransformSingle p f v = v) := by
  constructor
  · simp only [transformSingle, inverseTransformSingle]
    rw [if_neg h]
    field_simp
  · intro hm hs
    simp [transformSingle, inverseTransformSingle, hm, hs, jsOr]

/-- Witness for C3 on the unknown feature name `"X"` (empty parameter
records) at value 3. -/
theorem claim_C3_roundtrip_witness :
    jsOr (recLookup (ScalerParams.mk [] []).std "X") 1 ≠ 0 ∧
    (inverseTransformSingle ⟨[], []⟩ "X" (transformSingle ⟨[], []⟩ "X" 3) = 3 ∧
     (recLookup (ScalerParams.mk [] []).mean "X" = none →
      recLookup (ScalerParams.mk [] []).std "X" = none →
      transformSingle ⟨[], []⟩ "X" 3 = 3 ∧ inverseTransformSingle ⟨[], []⟩ "X" 3 = 3)) :=
  ⟨by norm_num [jsOr, recLookup, List.find?],
   claim_C3_roundtrip ⟨[], []⟩ "X" 3 (by norm_num [jsOr, recLookup, List.find?])⟩

/-- C5.  On every 2-element probability pair `[P(Normal), P(Fraud)]`,
`postprocess` labels `"Fraud"` exactly when `P(Fraud) > 0.5` (else
`"Normal"`), and its confidence score is the maximum of the two
probabilities (the probabilities are passed through unchanged). -/
theorem claim_C5_postprocess (probNormal probFraud : ℚ) :
    ((postprocess [probNormal, probFraud]).prediction = "Fraud" ↔
      probFraud > PREDICTION_THRESHOLDS_fraud)
  ∧ ((postprocess [probNormal, probFraud]).prediction = "Normal" ↔
      ¬ probFraud > PREDICTION_THRESHOLDS_fraud)
  ∧ (postprocess [probNormal, probFraud]).confidence_score = max probNormal probFraud
  ∧ (postprocess [probNormal, probFraud]).probability_fraud = probFraud
  ∧ (postprocess [probNormal, probFraud]).probability_normal = probNormal := by
  by_cases h : probFraud > PREDICTION_THRESHOLDS_fraud <;>
    simp [postprocess, h, sup_eq_max]

/-- C8.  `isUnusualHour` holds exactly on hours 1–5 and on the clause
`23 ≤ hour ≤ 24`; since the extracted hour is always in `0..23`, this is
the same as hours 1–5 together with hour 23 — the upper bound 24 never
matches. -/
theorem claim_C8_unusual_hour (t : ℤ) :
    (isUnusualHour t = true ↔
      ((1 ≤ getHours t ∧ getHours t ≤ 5) ∨ (23 ≤ getHours t ∧ getHours t ≤ 24)))
  ∧ (isUnusualHour t = true ↔
      ((1 ≤ getHours t ∧ getHours t ≤ 5) ∨ getHours t = 23)) := by
  have h0 : 0 ≤ getHours t := Int.emod_nonneg _ (by norm_num)
  have h24 : getHours t < 24 := Int.emod_lt_of_pos _ (by norm_num)
  unfold isUnusualHour
  constructor
  · simp [decide_eq_true_iff]
  · simp only [Bool.or_eq_true, Bool.and_eq_true, decide_eq_true_iff]
    omega

/-- C9.  `preprocess` classifies an input as raw exactly when a
`timestamp` field is present and a `V1` field is absent; a raw input is
assembled into the 30-slot vector whose `Time` and `Amount` are the scaled
values and whose 28 PCA slots are `getDefaultVFeatures` — the fixed
baseline taken from the saved legitimate transaction `SAMPLE_NORMAL`;
a non-raw input passes through unchanged. -/
theorem claim_C9_preprocess (i : DashInput) :
    ((preprocess i).2 = true ↔ (i.timestamp.isSome = true ∧ txGet i.numeric "V1" = none))
  ∧ (∀ ts, i.timestamp = some ts → txGet i.numeric "V1" = none →
      (preprocess i).1.numeric = convertToModelInput ts i.amount ∧
      (preprocess i).1.numeric =
        ("Time", JSNum.num (transformSingle pretrainedScalerParams "Time"
            ((secondsFromReference ts : ℤ) : ℚ)))
          :: getDefaultVFeatures ++ [("Amount", scaledAmountOf i.amount)])
  ∧ (isRawTransaction i = false → (preprocess i).1 = i) := by
  refine ⟨?_, ?_, ?_⟩
  · unfold preprocess
    split
    · rename_i h
      split <;>
        simp_all [isRawTransaction, Option.not_isSome_iff_eq_none, Option.isSome_iff_exists]
    · rename_i h
      simp only [Bool.not_eq_true] at h
      simp [isRawTransaction] at h
      constructor
      · intro hfalse
        exact absurd hfalse (by simp)
      · intro ⟨h1, h2⟩
        rw [h2] at h
        simp [h1] at h
  · intro ts hts hv1
    have hraw : isRawTransaction i = true := by
      simp [isRawTransaction, hts, hv1]
    unfold preprocess
    rw [if_pos hraw, hts]
    exact ⟨rfl, rfl⟩
  · intro h
    simp [preprocess, h]

/-- C4 counterexample.  With `V3` and `V5` both missing (the other 28
slots present), `predict` throws `"Missing or invalid feature: V3"` — an
error naming only the FIRST missing slot, with no mention of `V5` — so the
error does not list every missing field name.  No model invocation
occurs. -/
theorem claim_C4_counterexample :
    txGet tx28 "V3" = none ∧ txGet tx28 "V5" = none ∧
    (predict constModel 1 0 (initEngineState true) tx28 true).result =
      .error "Missing or invalid feature: V3" ∧
    (predict constModel 1 0 (initEngineState true) tx28 true).modelCalls = 0 ∧
    ¬ List.IsInfix "V5".data "Missing or invalid feature: V3".data := by
  have h := predict_miss_transform_error_eq constModel 1 0 (initEngineState true) tx28
    cacheKey0 "Missing or invalid feature: V3" rfl getCacheKey_tx28 rfl rfl
  exact ⟨rfl, rfl, by rw [h], by rw [h], by decide⟩

/-- C4 (amended).  On a loaded engine whose cache lookup misses (the
fingerprint slots `Time`, `V1`, `V2`, `Amount` being present and the key
uncached), a pre-processed input with a missing or non-finite slot makes
`predict` fail with no model invocation; a missing slot yields an error
naming only the first missing slot in feature order, while an input whose
30 slots are all present but not all finite yields a validation error
listing every non-finite field. -/
theorem claim_C4_amended (mdl : List JSNum → List ℚ) (iT : ℚ) (now : ℤ)
    (s : EngineState) (t : Transaction) (k : String)
    (hload : s.isModelLoaded = true)
    (hkey : getCacheKey t = .ok k)
    (hmiss : jsMapGet k s.cache = none) :
    (∀ name, firstMissingFeature t = some name →
      (predict mdl iT now s t true).result =
        .error ("Missing or invalid feature: " ++ name) ∧
      (predict mdl iT now s t true).modelCalls = 0)
  ∧ (∀ fs, transactionToFeatures t = .ok fs →
      (validateFeatureValues fs).valid = false →
      ((predict mdl iT now s t true).result =
         .error (INVALID_INPUT_VALUES ++ "\n" ++
           String.intercalate "\n" (validateFeatureValues fs).errors) ∧
       (predict mdl iT now s t true).modelCalls = 0 ∧
       ∀ v name, (v, name) ∈ fs.zip FEATURE_NAMES → jsIsFinite v = false →
         (name ++ " has invalid value: " ++ jsNumPlainStr v) ∈
           (validateFeatureValues fs).errors)) := by
  constructor
  · intro name hfm
    have h := predict_miss_transform_error_eq mdl iT now s t k _ hload hkey hmiss
      (transactionToFeatures_missing t name hfm)
    exact ⟨by rw [h], by rw [h]⟩
  · intro fs hfeat hvalid
    have h := predict_miss_invalid_eq mdl iT now s t k fs hload hkey hmiss hfeat hvalid
    refine ⟨by rw [h], by rw [h], ?_⟩
    intro v name hmem hnf
    exact invalid_value_mem_errors fs (transactionToFeatures_ok_length t fs hfeat)
      v name hmem hnf

/-- Witness for C4 (amended): the missing-slot case on `tx28` (first
missing slot `V3`) and the non-finite case on `txNaN` (`V7 = NaN`,
reported in the accumulated error list). -/
theorem claim_C4_amended_witness :
    ((initEngineState true).isModelLoaded = true ∧
     getCacheKey tx28 = .ok cacheKey0 ∧
     jsMapGet cacheKey0 (initEngineState true).cache = none ∧
     firstMissingFeature tx28 = some "V3" ∧
     (predict constModel 1 0 (initEngineState true) tx28 true).result =
       .error ("Missing or invalid feature: " ++ "V3") ∧
     (predict constModel 1 0 (initEngineState true) tx28 true).modelCalls = 0) ∧
    (getCacheKey txNaN = .ok cacheKey0 ∧
     transactionToFeatures txNaN = .ok featsN ∧
     (validateFeatureValues featsN).valid = false ∧
     (predict constModel 1 0 (initEngineState true) txNaN true).result =
       .error (INVALID_INPUT_VALUES ++ "\n" ++
         String.intercalate "\n" (validateFeatureValues featsN).errors) ∧
     (predict constModel 1 0 (initEngineState true) txNaN true).modelCalls = 0 ∧
     (JSNum.nan, "V7") ∈ featsN.zip FEATURE_NAMES ∧
     ("V7" ++ " has invalid value: " ++ jsNumPlainStr JSNum.nan) ∈
       (validateFeatureValues featsN).errors) := by
  have h1 := (claim_C4_amended constModel 1 0 (initEngineState true) tx28 cacheKey0
    rfl getCacheKey_tx28 rfl).1 "V3" rfl
  have h2 := (claim_C4_amended constModel 1 0 (initEngineState true) txNaN cacheKey0
    rfl getCacheKey_txNaN rfl).2 featsN rfl (by decide)
  exact ⟨⟨rfl, getCacheKey_tx28, rfl, rfl, h1.1, h1.2⟩,
    ⟨getCacheKey_txNaN, rfl, by decide, h2.1, h2.2.1, by decide,
     h2.2.2 JSNum.nan "V7" (by decide) rfl⟩⟩

/-- C6.  On a loaded engine, a first `predict` with caching on that misses
an empty slot for the input's fingerprint and passes validation, followed
within the TTL by a second `predict` on the identical transaction, returns
the same prediction and fraud probability both times; the second response
is the stored result marked `cached = true` and performs no model
invocation. -/
theorem claim_C6_cache_idempotent (mdl : List JSNum → List ℚ) (iT1 iT2 : ℚ)
    (now1 now2 : ℤ) (s : EngineState) (t : Transaction) (k : String) (fs : List JSNum)
    (hload : s.isModelLoaded = true)
    (hkey : getCacheKey t = .ok k)
    (hmiss : jsMapGet k s.cache = none)
    (hfeat : transactionToFeatures t = .ok fs)
    (hvalid : (validateFeatureValues fs).valid = true)
    (httl : now2 - now1 ≤ CACHE_MAX_AGE_MS) :
    ∃ r1 : InferenceResult,
      (predict mdl iT1 now1 s t true).result = .ok r1 ∧
      (predict mdl iT2 now2 (predict mdl iT1 now1 s t true).state t true).result =
        .ok { r1 with cached := true } ∧
      ({ r1 with cached := true } : InferenceResult).prediction = r1.prediction ∧
      ({ r1 with cached := true } : InferenceResult).probability_fraud =
        r1.probability_fraud ∧
      (predict mdl iT2 now2 (predict mdl iT1 now1 s t true).state t true).modelCalls =
        0 := by
  have h1 := predict_miss_success_eq mdl iT1 now1 s t k fs hload hkey hmiss hfeat hvalid
  refine ⟨{ toPredictionResult := postprocess (mdl fs), cached := false }, by rw [h1], ?_,
    rfl, rfl, ?_⟩
  · have hload2 : (predict mdl iT1 now1 s t true).state.isModelLoaded = true := by
      rw [h1]
      exact hload
    have hget2 : jsMapGet k (predict mdl iT1 now1 s t true).state.cache =
        some { input := k
               result := { toPredictionResult := postprocess (mdl fs), cached := false }
               timestamp := now1 } := by
      rw [h1]
      exact jsMapGet_addToCache_self _ _ _ _
    have h2 := predict_hit_eq mdl iT2 now2 (predict mdl iT1 now1 s t true).state t k
      _ hload2 hkey hget2 (by simpa using httl)
    rw [h2]
  · have hload2 : (predict mdl iT1 now1 s t true).state.isModelLoaded = true := by
      rw [h1]; exact hload
    have hget2 : jsMapGet k (predict mdl iT1 now1 s t true).state.cache =
        some { input := k
               result := { toPredictionResult := postprocess (mdl fs), cached := false }
               timestamp := now1 } := by
      rw [h1]
      exact jsMapGet_addToCache_self _ _ _ _
    have h2 := predict_hit_eq mdl iT2 now2 (predict mdl iT1 now1 s t true).state t k
      _ hload2 hkey hget2 (by simpa using httl)
    rw [h2]

/-- Witness for C6: the all-zero transaction on a fresh loaded engine,
first call at time 0, second at time 1000 (within the 1-hour TTL). -/
theorem claim_C6_cache_idempotent_witness :
    (initEngineState true).isModelLoaded = true ∧
    getCacheKey tx0 = .ok cacheKey0 ∧
    jsMapGet cacheKey0 (initEngineState true).cache = none ∧
    transactionToFeatures tx0 = .ok feats0 ∧
    (validateFeatureValues feats0).valid = true ∧
    ((1000 : ℤ) - 0 ≤ CACHE_MAX_AGE_MS) ∧
    (∃ r1 : InferenceResult,
      (predict constModel 1 0 (initEngineState true) tx0 true).result = .ok r1 ∧
      (predict constModel 2 1000
          (predict constModel 1 0 (initEngineState true) tx0 true).state tx0 true).result =
        .ok { r1 with cached := true } ∧
      ({ r1 with cached := true } : InferenceResult).prediction = r1.prediction ∧
      ({ r1 with cached := true } : InferenceResult).probability_fraud =
        r1.probability_fraud ∧
      (predict constModel 2 1000
          (predict constModel 1 0 (initEngineState true) tx0 true).state tx0
          true).modelCalls = 0) :=
  ⟨rfl, getCacheKey_tx0, rfl, rfl, by decide, by decide,
   claim_C6_cache_idempotent constModel 1 2 0 1000 (initEngineState true) tx0 cacheKey0
     feats0 rfl getCacheKey_tx0 rfl rfl (by decide) (by decide)⟩

/-- C7.  After any sequence of `predict` calls from a fresh engine the
prediction cache holds at most `maxCacheSize = 100` entries; and an
insertion into a cache at (or beyond) capacity first evicts the
oldest-inserted entry: after `addToCache`, the old head key maps to
nothing — unless it is the key being inserted, in which case it maps to
the fresh entry. -/
theorem claim_C7_capacity :
    (∀ (mdl : List JSNum → List ℚ) (loaded : Bool) (reqs : List PredictRequest),
      (runPredicts mdl (initEngineState loaded) reqs).cache.length ≤ maxCacheSize)
  ∧ (∀ (k0 : String) (e0 : CacheEntry) (tl : List (String × CacheEntry)) (k : String)
       (r : InferenceResult) (now : ℤ),
      maxCacheSize ≤ ((k0, e0) :: tl).length → k0 ≠ "" →
      jsMapGet k0 (addToCache ((k0, e0) :: tl) k r now) =
        if k = k0 then some { input := k, result := r, timestamp := now } else none) := by
  constructor
  · intro mdl loaded reqs
    exact (runPredicts_cacheWF mdl (initEngineState loaded) reqs
      ⟨by simp [initEngineState, maxCacheSize], by simp [initEngineState]⟩).1
  · intro k0 e0 tl k r now hfull hne
    unfold addToCache
    rw [if_pos hfull]
    simp only [List.head?_cons, ne_eq, hne, not_false_iff, if_pos]
    by_cases hk : k = k0
    · subst hk
      rw [if_pos rfl]
      exact jsMapGet_set_self _ _ _
    · rw [if_neg hk,
        jsMapGet_set_ne k k0 _ _ (fun hh => hk hh.symm),
        jsMapGet_delete_self]

/-- Witness for C7: the empty call sequence, and a concrete 100-entry
cache whose oldest key `"a"` is evicted by inserting key `"b"`. -/
theorem claim_C7_capacity_witness :
    ((runPredicts constModel (initEngineState true) []).cache.length ≤ maxCacheSize) ∧
    (maxCacheSize ≤ (("a", dummyEntry) :: List.replicate 99 ("a", dummyEntry)).length) ∧
    ("a" : String) ≠ "" ∧
    jsMapGet "a"
        (addToCache (("a", dummyEntry) :: List.replicate 99 ("a", dummyEntry))
          "b" dummyResult 5) =
      (if "b" = "a" then some { input := "b", result := dummyResult, timestamp := 5 }
       else none) :=
  ⟨claim_C7_capacity.1 constModel true [],
   by decide, by decide,
   claim_C7_capacity.2 "a" dummyEntry (List.replicate 99 ("a", dummyEntry)) "b"
     dummyResult 5 (by decide) (by decide)⟩

/-- C10.  A `predict` answered from the cache (a hit within the TTL)
leaves the cache, `totalPredictions` and `totalInferenceTime` untouched
and only increments `cacheHits`, with zero model invocations; across every
`predict` call, `totalPredictions` grows by exactly the number of model
invocations (so `getStats().totalPredictions` counts model invocations
only); and `getStats().avgInferenceTime` is 0 when there have been no
model invocations. -/
theorem claim_C10_hit_frame :
    (∀ (mdl : List JSNum → List ℚ) (iT : ℚ) (now : ℤ) (s : EngineState)
       (t : Transaction) (k : String) (entry : CacheEntry),
      s.isModelLoaded = true → getCacheKey t = .ok k →
      jsMapGet k s.cache = some entry → now - entry.timestamp ≤ CACHE_MAX_AGE_MS →
      predict mdl iT now s t true =
        { result := .ok { entry.result with cached := true }
          state := { s with cacheHits := s.cacheHits + 1 }
          modelCalls := 0 })
  ∧ (∀ (mdl : List JSNum → List ℚ) (iT : ℚ) (now : ℤ) (s : EngineState)
       (t : Transaction) (u : Bool),
      (predict mdl iT now s t u).state.totalPredictions =
        s.totalPredictions + (predict mdl iT now s t u).modelCalls)
  ∧ (∀ s : EngineState, s.totalPredictions = 0 → (getStats s).avgInferenceTime = 0) :=
  ⟨predict_hit_eq, predict_totalPredictions, by
    intro s h
    simp [getStats, h]⟩

/-- Witness for C10: a hit at time 10 on an engine with one cached entry
under `tx0`'s fingerprint, and a fresh engine's average inference time. -/
theorem claim_C10_hit_frame_witness :
    engineWithEntry.isModelLoaded = true ∧
    getCacheKey tx0 = .ok cacheKey0 ∧
    jsMapGet cacheKey0 engineWithEntry.cache =
      some { input := cacheKey0, result := dummyResult, timestamp := 0 } ∧
    ((10 : ℤ) - 0 ≤ CACHE_MAX_AGE_MS) ∧
    predict constModel 1 10 engineWithEntry tx0 true =
      { result := .ok { dummyResult with cached := true }
        state := { engineWithEntry with cacheHits := engineWithEntry.cacheHits + 1 }
        modelCalls := 0 } ∧
    (initEngineState true).totalPredictions = 0 ∧
    (getStats (initEngineState true)).avgInferenceTime = 0 :=
  ⟨rfl, getCacheKey_tx0, rfl, by decide,
   claim_C10_hit_frame.1 constModel 1 10 engineWithEntry tx0 cacheKey0
     { input := cacheKey0, result := dummyResult, timestamp := 0 }
     rfl getCacheKey_tx0 rfl (by decide),
   rfl,
   claim_C10_hit_frame.2.2 (initEngineState true) rfl⟩

/-- Witness for C9 on a concrete raw input (timestamp about 1.8 hours past
the reference instant, amount 100). -/
theorem claim_C9_preprocess_witness :
    dashRawExample.timestamp = some 1378000000000 ∧
    txGet dashRawExample.numeric "V1" = none ∧
    ((preprocess dashRawExample).1.numeric =
       convertToModelInput 1378000000000 dashRawExample.amount ∧
     (preprocess dashRawExample).1.numeric =
       ("Time", JSNum.num (transformSingle pretrainedScalerParams "Time"
           ((secondsFromReference 1378000000000 : ℤ) : ℚ)))
         :: getDefaultVFeatures ++ [("Amount", scaledAmountOf dashRawExample.amount)]) :=
  ⟨rfl, rfl, (claim_C9_preprocess dashRawExample).2.1 1378000000000 rfl rfl⟩

end FraudDetection
